import Mathlib

/-!
Shallow embedding of the core billing logic of the bilean engine
(`bilean/engine/user.py`, `bilean/engine/lock.py`,
`bilean/db/sqlalchemy/api.py`, `bilean/plugins/base.py`,
`bilean/scheduler/cron_scheduler.py`,
`bilean/engine/actions/user_action.py`), together with theorems that
settle the specification claims about it.

Money, rates and timestamps are modelled as exact rationals (`ℚ`);
timestamps are seconds since an arbitrary epoch, so `(now -
last_bill).total_seconds()` in the Python source becomes the plain
difference `now - last_bill`.  Configuration values that the source
reads from `cfg.CONF` (`prior_notify_time`, `lock_retry_times`,
`lock_retry_interval`, `periodic_interval`) are passed as explicit
parameters.
-/

namespace Bilean

/-- The user statuses declared in `User.statuses`
(`bilean/engine/user.py`). -/
inductive UserStatus
  | INIT
  | FREE
  | ACTIVE
  | WARNING
  | FREEZE
  deriving DecidableEq, Repr

open UserStatus

/-- In-memory user (account) object, the fields of
`User.__init__` that the core ledger logic reads or writes
(`bilean/engine/user.py`).  `id`, `credit` and `status_reason` are
carried along so that frame claims ("no other field changes") are
meaningful. -/
structure User where
  id : String
  balance : ℚ
  rate : ℚ
  credit : ℤ
  last_bill : ℚ
  status : UserStatus
  status_reason : String
  deriving DecidableEq, Repr

/-- `User._settle_account` (`bilean/engine/user.py` lines 352-362):
ignore the settlement when the user status is neither `ACTIVE` nor
`WARNING`; otherwise subtract `rate * (now - last_bill) + extra_cost`
from the balance and advance `last_bill` to `now`. -/
def User._settle_account (u : User) (now : ℚ) (extra_cost : ℚ) : User :=
  if u.status ≠ ACTIVE ∧ u.status ≠ WARNING then
    u
  else
    let total_seconds := now - u.last_bill
    let cost := u.rate * total_seconds + extra_cost
    { u with balance := u.balance - cost, last_bill := now }

/-- `User._notify_or_not` (`bilean/engine/user.py` lines 337-346):
the user should be notified unless
`balance > prior_notify_time * 3600 * rate`.  The configured
`prior_notify_time` is in hours. -/
def User._notify_or_not (u : User) (prior_notify_hours : ℚ) : Bool :=
  let prior_notify_time := prior_notify_hours * 3600
  let rest_usage := prior_notify_time * u.rate
  if u.balance > rest_usage then false else true

/-- `User._change_rate` (`bilean/engine/user.py` lines 287-307):
apply a rate delta and adjust status.  Note that the
`_notify_or_not` check runs before `self.rate` is overwritten, so it
sees the OLD rate. -/
def User._change_rate (u : User) (d_rate : ℚ) (now : ℚ)
    (prior_notify_hours : ℚ) : User :=
  let old_rate := u.rate
  let new_rate := old_rate + d_rate
  let u1 :=
    if old_rate = 0 ∧ new_rate > 0 then
      { u with last_bill := now, status := ACTIVE,
               status_reason := "Status change to ACTIVE caus resource creation." }
    else if d_rate < 0 then
      if new_rate = 0 ∧ u.balance ≥ 0 then
        { u with status := FREE,
                 status_reason := "Status change to FREE because of resource deletion." }
      else if u.status = WARNING ∧ ¬ (u._notify_or_not prior_notify_hours) then
        { u with status := ACTIVE,
                 status_reason := "Status change from WARNING to ACTIVE because of resource deletion." }
      else u
    else u
  { u1 with rate := new_rate }

/-- `User.do_recharge` (`bilean/engine/user.py` lines 309-335): add
`value` to the balance, then re-evaluate the status.  All checks run
on the already-updated balance. -/
def User.do_recharge (u : User) (value : ℚ) (prior_notify_hours : ℚ) : User :=
  let u1 := { u with balance := u.balance + value }
  if u1.status = INIT ∧ u1.balance > 0 then
    { u1 with status := FREE, status_reason := "Recharged" }
  else if u1.status = FREEZE ∧ u1.balance > 0 then
    { u1 with status := FREE,
              status_reason := "Status change from FREEZE to FREE because of recharge." }
  else if u1.status = WARNING then
    if ¬ (u1._notify_or_not prior_notify_hours) then
      { u1 with status := ACTIVE,
                status_reason := "Status change from WARNING to ACTIVE because of recharge." }
    else u1
  else u1

/-- A resource row owned by a user, as far as the freeze cascade in
`User.settle_account` is concerned: `Resource.load_all` returns the
non-deleted rows and `resource.do_delete` deletes each of them. -/
structure OwnedResource where
  id : String
  rate : ℚ
  deleted : Bool
  deriving DecidableEq, Repr

/-- `User.settle_account` (`bilean/engine/user.py` lines 364-391):
run the internal settlement, then, depending on the scheduled `task`,
either move to `WARNING` (task `notify` and the notify check fires) or
freeze the account (task `freeze` and `balance <= 0`): delete every
loaded (non-deleted) resource, reset the rate to `0` and set status
`FREEZE`. -/
def User.settle_account (u : User) (resources : List OwnedResource)
    (task : Option String) (now : ℚ) (prior_notify_hours : ℚ) :
    User × List OwnedResource :=
  let u1 := u._settle_account now 0
  if task = some "notify" ∧ u1._notify_or_not prior_notify_hours then
    ({ u1 with status := WARNING,
               status_reason := "The balance is almost used up" }, resources)
  else if task = some "freeze" ∧ u1.balance ≤ 0 then
    let deleted := resources.map (fun r =>
      if r.deleted then r else { r with deleted := true })
    ({ u1 with rate := 0, status := FREEZE,
               status_reason := "Balance overdraft" }, deleted)
  else
    (u1, resources)

/-- A billable resource as handled by the plugin layer
(`bilean/plugins/base.py`): by the time `_update` runs, `rate` already
holds the NEW rate and `delta_rate` the applied delta, so the old rate
is `rate - delta_rate`. -/
structure PluginResource where
  id : String
  user_id : String
  resource_type : String
  rate : ℚ
  delta_rate : ℚ
  last_bill : ℚ
  deriving DecidableEq, Repr

/-- The immutable consumption record created by
`Consumption.__init__` from the params dictionaries built in
`Resource._update` / `Resource._delete` (`bilean/plugins/base.py`). -/
structure Consumption where
  user_id : String
  resource_id : String
  resource_type : String
  start_time : ℚ
  end_time : ℚ
  rate : ℚ
  cost : ℚ
  deriving DecidableEq, Repr

/-- `Resource._update` (`bilean/plugins/base.py` lines 317-342): when
the rate changed (`delta_rate ≠ 0`), synthesize one consumption record
covering `[last_bill, updated_at)` at the old rate
(`rate - delta_rate`) with `cost = (updated_at - last_bill) *
old_rate`, and advance the resource's `last_bill` to `updated_at`.
`updated_at` is the event timestamp the code takes from
`properties['updated_at']`, falling back to the wall clock; it is a
parameter here. -/
def PluginResource._update (r : PluginResource) (updated_at : ℚ) :
    PluginResource × Option Consumption :=
  if r.delta_rate = 0 then
    (r, none)
  else
    let old_rate := r.rate - r.delta_rate
    let cost := (updated_at - r.last_bill) * old_rate
    let c : Consumption :=
      { user_id := r.user_id, resource_id := r.id,
        resource_type := r.resource_type,
        start_time := r.last_bill, end_time := updated_at,
        rate := old_rate, cost := cost }
    ({ r with last_bill := updated_at }, some c)

/-- `Resource._delete` (`bilean/plugins/base.py` lines 344-368): set
`delta_rate := -rate`; when the rate is nonzero, synthesize one final
consumption record covering `[last_bill, deleted_at)` at the current
rate with `cost = (deleted_at - last_bill) * rate`, and advance
`last_bill` to `deleted_at`. -/
def PluginResource._delete (r : PluginResource) (deleted_at : ℚ) :
    PluginResource × Option Consumption :=
  let r1 := { r with delta_rate := - r.rate }
  if r1.delta_rate = 0 then
    (r1, none)
  else
    let cost := (deleted_at - r1.last_bill) * r1.rate
    let c : Consumption :=
      { user_id := r1.user_id, resource_id := r1.id,
        resource_type := r1.resource_type,
        start_time := r1.last_bill, end_time := deleted_at,
        rate := r1.rate, cost := cost }
    ({ r1 with last_bill := deleted_at }, some c)

/-- `CronScheduler._add_notify_job` (`bilean/scheduler/cron_scheduler.py`
lines 179-196), reduced to the run date it schedules: `none` when the
user's rate is `0` (the method bails out), otherwise
`now + notify_seconds` where `notify_seconds = balance / rate -
prior_notify_time * 3600` clamped below at `0`. -/
def CronScheduler._add_notify_job (u : User) (now : ℚ)
    (prior_notify_hours : ℚ) : Option ℚ :=
  if u.rate = 0 then
    none
  else
    let total_seconds := u.balance / u.rate
    let prior_notify_time := prior_notify_hours * 3600
    let notify_seconds := total_seconds - prior_notify_time
    let notify_seconds := if notify_seconds > 0 then notify_seconds else 0
    some (now + notify_seconds)

/-- `CronScheduler._add_freeze_job` (`bilean/scheduler/cron_scheduler.py`
lines 198-214), reduced to the run date it schedules: `none` when the
user's rate is `0`, otherwise `now + balance / rate`. -/
def CronScheduler._add_freeze_job (u : User) (now : ℚ) : Option ℚ :=
  if u.rate = 0 then
    none
  else
    let total_seconds := u.balance / u.rate
    some (now + total_seconds)

/-- A row of the `action` table, as far as the lock-stealing logic
reads it: `id` plus the `owner` column holding the id of the worker
engine running the action, and the status mutated by
`action_mark_failed` (`bilean/db/sqlalchemy/api.py`). -/
structure ActionRec where
  id : String
  owner : Option String
  status : String
  deriving DecidableEq, Repr

/-- The database state the locking code touches: the `user_lock` table
(user id to owning action id), the `action` table (action id to row)
and the `service` table reduced to each engine's last heartbeat
timestamp (`updated_at`). -/
structure DbState where
  locks : String → Option String
  actions : String → Option ActionRec
  services : String → Option ℚ

/-- `user_lock_acquire` in `bilean/db/sqlalchemy/api.py` lines
478-488: create the lock row if none exists, then return the row's
`action_id` (the new owner on creation, the existing owner
otherwise). -/
def db_user_lock_acquire (locks : String → Option String)
    (user_id action_id : String) : (String → Option String) × String :=
  match locks user_id with
  | none => (fun x => if x = user_id then some action_id else locks x, action_id)
  | some owner => (locks, owner)

/-- `user_lock_release` in `bilean/db/sqlalchemy/api.py` lines
491-502: delete the lock row only when it exists and is owned by
`action_id`; return whether a row was deleted. -/
def db_user_lock_release (locks : String → Option String)
    (user_id action_id : String) : (String → Option String) × Bool :=
  match locks user_id with
  | none => (locks, false)
  | some owner =>
    if owner = action_id then
      (fun x => if x = user_id then none else locks x, true)
    else
      (locks, false)

/-- `user_lock_steal` in `bilean/db/sqlalchemy/api.py` lines 505-517:
overwrite (or create) the lock row with `action_id` unconditionally
and return the resulting owner. -/
def db_user_lock_steal (locks : String → Option String)
    (user_id action_id : String) : (String → Option String) × String :=
  (fun x => if x = user_id then some action_id else locks x, action_id)

/-- `is_engine_dead` (`bilean/engine/lock.py` lines 30-40): an engine
is dead when it has no service record, or its last heartbeat is more
than `period_time` seconds old (the caller passes `2 *
periodic_interval` by default). -/
def is_engine_dead (services : String → Option ℚ) (now : ℚ)
    (period_time : ℚ) (engine_id : String) : Bool :=
  match services engine_id with
  | none => true
  | some updated_at => decide (now - updated_at > period_time)

/-- Outcome summary of one engine-level `user_lock_acquire` call:
whether the lock was acquired, how many `db_api.user_lock_acquire`
calls were made, the total seconds slept, whether
`db_api.user_lock_steal` ran, and which action id (if any) was passed
to `db_api.action_mark_failed`. -/
structure AcquireResult where
  acquired : Bool
  db_calls : ℕ
  slept : ℚ
  stole : Bool
  marked_failed : Option String
  deriving DecidableEq, Repr

/-- The retry loop of `user_lock_acquire` (`bilean/engine/lock.py`
lines 68-74): while retries remain, sleep `lock_retry_interval`, call
the DB-level acquire again, and stop on success.  Because other
workers mutate the lock table concurrently, the owner returned by the
`idx`-th DB-level acquire call is abstracted as `seq idx`.  Returns
`(success, last observed owner, number of iterations executed)`;
every executed iteration slept once and made one DB call. -/
def lock_retry_loop (seq : ℕ → String) (action_id : String) :
    ℕ → ℕ → String → Bool × String × ℕ
  | 0, _, owner => (false, owner, 0)
  | retries + 1, idx, _ =>
    let owner := seq idx
    if owner = action_id then
      (true, owner, 1)
    else
      let res := lock_retry_loop seq action_id retries (idx + 1) owner
      (res.1, res.2.1, res.2.2 + 1)

/-- The Python truthiness chain `action and action.owner and
action.owner != engine and is_engine_dead(context, action.owner)`
guarding the dead-owner steal in `user_lock_acquire`
(`bilean/engine/lock.py` lines 80-81): the owning action row must
exist, name an owning engine, that engine must differ from the
caller's `engine` argument, and it must be dead. -/
def dead_owner_condition (db : DbState) (engine : Option String)
    (now periodic_interval : ℚ) (owner : String) : Bool :=
  match db.actions owner with
  | none => false
  | some act =>
    match act.owner with
    | none => false
    | some eng =>
      decide (¬ engine = some eng) &&
        is_engine_dead db.services now (2 * periodic_interval) eng

/-- Engine-level `user_lock_acquire` (`bilean/engine/lock.py` lines
49-97).  `seq idx` is the owner returned by the `idx`-th DB-level
acquire call (with `seq 0` matching `db.locks` when no other worker
interferes); `engine` is the calling worker's engine id (the
`engine` parameter, possibly `None`).  After a failed first attempt
and up to `retry_times` failed retries: if `forced`, steal; otherwise
when `dead_owner_condition` holds for the last observed owner, mark
the owning action failed and steal; in every other case fail. -/
def user_lock_acquire (db : DbState) (seq : ℕ → String)
    (user_id action_id : String) (engine : Option String)
    (forced : Bool) (retry_times : ℕ) (retry_interval : ℚ)
    (now : ℚ) (periodic_interval : ℚ) : AcquireResult × DbState :=
  if seq 0 = action_id then
    ({ acquired := true, db_calls := 1, slept := 0, stole := false,
       marked_failed := none }, db)
  else if (lock_retry_loop seq action_id retry_times 1 (seq 0)).1 then
    ({ acquired := true,
       db_calls := 1 + (lock_retry_loop seq action_id retry_times 1 (seq 0)).2.2,
       slept := retry_interval *
         (lock_retry_loop seq action_id retry_times 1 (seq 0)).2.2,
       stole := false, marked_failed := none }, db)
  else if forced then
    ({ acquired :=
         decide (action_id = (db_user_lock_steal db.locks user_id action_id).2),
       db_calls := 1 + (lock_retry_loop seq action_id retry_times 1 (seq 0)).2.2,
       slept := retry_interval *
         (lock_retry_loop seq action_id retry_times 1 (seq 0)).2.2,
       stole := true, marked_failed := none },
     { db with locks := (db_user_lock_steal db.locks user_id action_id).1 })
  else if dead_owner_condition db engine now periodic_interval
      (lock_retry_loop seq action_id retry_times 1 (seq 0)).2.1 then
    ({ acquired := true,
       db_calls := 1 + (lock_retry_loop seq action_id retry_times 1 (seq 0)).2.2,
       slept := retry_interval *
         (lock_retry_loop seq action_id retry_times 1 (seq 0)).2.2,
       stole := true,
       marked_failed := Option.map (fun act => act.id)
         (db.actions (lock_retry_loop seq action_id retry_times 1 (seq 0)).2.1) },
     { db with
         locks := (db_user_lock_steal db.locks user_id action_id).1,
         actions := fun x =>
           if x = (lock_retry_loop seq action_id retry_times 1 (seq 0)).2.1
           then Option.map (fun act => { act with status := "FAILED" })
             (db.actions x)
           else db.actions x })
  else
    ({ acquired := false,
       db_calls := 1 + (lock_retry_loop seq action_id retry_times 1 (seq 0)).2.2,
       slept := retry_interval *
         (lock_retry_loop seq action_id retry_times 1 (seq 0)).2.2,
       stole := false, marked_failed := none }, db)

/-- `user_lock_release` (`bilean/engine/lock.py` lines 100-106) just
forwards to the DB-level release. -/
def user_lock_release (locks : String → Option String)
    (user_id action_id : String) : (String → Option String) × Bool :=
  db_user_lock_release locks user_id action_id

/-- The action result codes of `base.Action`
(`bilean/engine/actions/base.py`). -/
inductive ActionResult
  | RES_OK
  | RES_ERROR
  | RES_RETRY
  | RES_CANCEL
  | RES_TIMEOUT
  deriving DecidableEq, Repr

/-- Observable lock-API calls made while executing an action, used to
state that the release call happens on every path. -/
inductive LockEvent
  | acquire_call (user_id action_id : String)
  | release_call (user_id action_id : String)
  deriving DecidableEq, Repr

/-- State threaded through `UserAction.execute`: the database plus a
log of the lock-API calls that were made. -/
structure EngineState where
  db : DbState
  events : List LockEvent

/-- Python's `try: body finally: cleanup`: run the body (which either
returns a value or raises, modelled by the result type `α` being an
`Except`), then run the cleanup on the resulting state, then give back
the body's outcome (a raised exception keeps propagating). -/
def tryFinally {σ α : Type} (body : σ → σ × α) (cleanup : σ → σ)
    (s : σ) : σ × α :=
  let r := body s
  (cleanup r.1, r.2)

/-- `UserAction.execute` (`bilean/engine/actions/user_action.py` lines
151-171): inside a `try` block acquire the per-user lock with the
action's own id (`forced` defaults to false); if that fails, the
result is `(RES_ERROR, 'Failed in locking user')`, otherwise the
result is whatever `self._execute()` produces — including a raised
exception, modelled as `Except.error` — and in the `finally` block
`user_lock_release(target, action_id)` always runs.  The action body
`_execute` is an arbitrary state transformer. -/
def UserAction.execute (seq : ℕ → String) (retry_times : ℕ)
    (retry_interval now periodic_interval : ℚ)
    (target action_id : String) (owner : Option String)
    (body : EngineState → EngineState × Except String (ActionResult × String))
    (s : EngineState) : EngineState × Except String (ActionResult × String) :=
  tryFinally
    (fun s0 =>
      let acq := user_lock_acquire s0.db seq target action_id owner false
        retry_times retry_interval now periodic_interval
      let s1 : EngineState :=
        { db := acq.2,
          events := s0.events ++ [LockEvent.acquire_call target action_id] }
      if acq.1.acquired then
        body s1
      else
        (s1, Except.ok (ActionResult.RES_ERROR, "Failed in locking user")))
    (fun s2 =>
      { db := { s2.db with
                  locks := (user_lock_release s2.db.locks target action_id).1 },
        events := s2.events ++ [LockEvent.release_call target action_id] })
    s

/-! ## Example accounts used as concrete inputs -/

/-- A `FREE` account with a (stale) positive rate and an old
`last_bill`. -/
def exFreeUser : User :=
  { id := "u1", balance := 10, rate := 1, credit := 0, last_bill := 0,
    status := UserStatus.FREE, status_reason := "settled" }

/-- An `ACTIVE` account. -/
def exActiveUser : User :=
  { id := "u2", balance := 100, rate := 1, credit := 0, last_bill := 5,
    status := UserStatus.ACTIVE, status_reason := "active" }

/-! ## Claims -/

/-- C1, counterexample: the claim quantifies over every account with
`rate ≥ 0` and `elapsed ≥ 0`, but `_settle_account` is a no-op for an
account whose status is not `ACTIVE`/`WARNING`: for the `FREE` account
`exFreeUser` (rate 1, elapsed 5) the balance is not decreased by
`rate * elapsed` and `last_bill` is not advanced to `now`. -/
theorem settle_noop_on_free_violates_claim :
    0 ≤ exFreeUser.rate ∧ 0 ≤ (5 : ℚ) - exFreeUser.last_bill ∧
    (exFreeUser._settle_account 5 0).balance ≠
      exFreeUser.balance - exFreeUser.rate * (5 - exFreeUser.last_bill) ∧
    (exFreeUser._settle_account 5 0).last_bill ≠ 5 := by
  have hnoop : exFreeUser._settle_account 5 0 = exFreeUser := by decide
  refine ⟨by norm_num [exFreeUser], by norm_num [exFreeUser], ?_, ?_⟩ <;>
    rw [hnoop] <;> norm_num [exFreeUser]

/-- C1, amended: for every account in status `ACTIVE` or `WARNING`
with `rate ≥ 0` and `elapsed = now - last_bill ≥ 0`, settlement
decreases the balance by exactly `rate * elapsed` and sets `last_bill`
to `now`; an immediately repeated settlement (zero additional elapsed
time) changes nothing. -/
theorem settle_account_active_warning_spec (u : User) (now : ℚ)
    (hs : u.status = UserStatus.ACTIVE ∨ u.status = UserStatus.WARNING)
    (hr : 0 ≤ u.rate) (he : 0 ≤ now - u.last_bill) :
    (u._settle_account now 0).balance
        = u.balance - u.rate * (now - u.last_bill) ∧
    (u._settle_account now 0).last_bill = now ∧
    (u._settle_account now 0)._settle_account now 0
        = u._settle_account now 0 := by
  have hg : ¬ (u.status ≠ UserStatus.ACTIVE ∧ u.status ≠ UserStatus.WARNING) := by
    rcases hs with h | h <;> simp [h]
  refine ⟨?_, ?_, ?_⟩ <;> simp [User._settle_account, hg]

/-- Witness for `settle_account_active_warning_spec` at the concrete
account `exActiveUser` and `now = 8`. -/
theorem settle_account_active_warning_spec_witness :
    (exActiveUser.status = UserStatus.ACTIVE ∨
      exActiveUser.status = UserStatus.WARNING) ∧
    0 ≤ exActiveUser.rate ∧ 0 ≤ (8 : ℚ) - exActiveUser.last_bill ∧
    ((exActiveUser._settle_account 8 0).balance
        = exActiveUser.balance - exActiveUser.rate * (8 - exActiveUser.last_bill) ∧
      (exActiveUser._settle_account 8 0).last_bill = 8 ∧
      (exActiveUser._settle_account 8 0)._settle_account 8 0
        = exActiveUser._settle_account 8 0) :=
  ⟨by decide, by norm_num [exActiveUser], by norm_num [exActiveUser],
    settle_account_active_warning_spec exActiveUser 8 (by decide)
      (by norm_num [exActiveUser]) (by norm_num [exActiveUser])⟩

/-- C8: recharging by `v` and then settling with zero elapsed time
(a settlement at `now` equal to the account's `last_bill`) leaves the
balance at `old_balance + v`, whatever the account's status. -/
theorem recharge_settle_round_trip (u : User)
    (value prior_notify_hours now : ℚ)
    (h : now = (u.do_recharge value prior_notify_hours).last_bill) :
    ((u.do_recharge value prior_notify_hours)._settle_account now 0).balance
      = u.balance + value := by
  have hb : (u.do_recharge value prior_notify_hours).balance
      = u.balance + value := by
    simp only [User.do_recharge]
    repeat' split
    all_goals rfl
  generalize hg : u.do_recharge value prior_notify_hours = u1 at h hb
  unfold User._settle_account
  split
  · exact hb
  · show u1.balance - (u1.rate * (now - u1.last_bill) + 0) = u.balance + value
    rw [h, hb]
    ring

/-- Witness for `recharge_settle_round_trip` at `exActiveUser`,
recharge value `7` and `now = 5`. -/
theorem recharge_settle_round_trip_witness :
    (5 : ℚ) = (exActiveUser.do_recharge 7 1).last_bill ∧
    ((exActiveUser.do_recharge 7 1)._settle_account 5 0).balance
      = exActiveUser.balance + 7 :=
  ⟨by decide, recharge_settle_round_trip exActiveUser 7 1 5 (by decide)⟩

/-- C10: for an account whose status is not `ACTIVE` and not
`WARNING`, the internal settlement is a complete no-op — the resulting
user record equals the input record field for field, even with a
nonzero `extra_cost`. -/
theorem settle_account_noop_frame (u : User) (now extra_cost : ℚ)
    (h1 : u.status ≠ UserStatus.ACTIVE)
    (h2 : u.status ≠ UserStatus.WARNING) :
    u._settle_account now extra_cost = u := by
  simp [User._settle_account, h1, h2]

/-- Witness for `settle_account_noop_frame` at `exFreeUser`,
`now = 9` and `extra_cost = 4`. -/
theorem settle_account_noop_frame_witness :
    exFreeUser.status ≠ UserStatus.ACTIVE ∧
    exFreeUser.status ≠ UserStatus.WARNING ∧
    exFreeUser._settle_account 9 4 = exFreeUser :=
  ⟨by decide, by decide,
    settle_account_noop_frame exFreeUser 9 4 (by decide) (by decide)⟩

/-- An `INIT` account with zero rate. -/
def exInitUser : User :=
  { id := "u3", balance := 0, rate := 0, credit := 0, last_bill := 0,
    status := UserStatus.INIT, status_reason := "Init user" }

/-- A `WARNING` account whose runway at the rate reduced by 1 would
exceed a 600-second notify window, while at the current rate it does
not. -/
def exWarnUser : User :=
  { id := "u4", balance := 700, rate := 2, credit := 0, last_bill := 0,
    status := UserStatus.WARNING, status_reason := "warn" }

/-- `_notify_or_not` fires (is `false`, meaning "do not notify")
exactly when the balance strictly exceeds the notify window times the
CURRENT rate. -/
theorem notify_or_not_eq_false_iff (u : User) (p : ℚ) :
    u._notify_or_not p = false ↔ u.balance > p * 3600 * u.rate := by
  show (if u.balance > p * 3600 * u.rate then false else true) = false ↔ _
  split <;> simp_all

/-- C5, counterexample.  Two discrepancies between the claim and
`_change_rate`: (1) for the `INIT` account `exInitUser` and delta `1`
(`old_rate = 0`, new rate `> 0`, status not `FREE`) the claim leaves
the status unchanged, but the code sets `ACTIVE` regardless of the
previous status; (2) for the `WARNING` account `exWarnUser`, delta
`-1` and a 600-second notify window (`prior_notify_hours = 1/6`), the
projected runway at the NEW rate is `700/1 = 700 > 600`, so the claim
demands `ACTIVE`, but the code evaluates the notify check at the OLD
rate (`700 ≤ 600 * 2`) and stays `WARNING`. -/
theorem change_rate_claim_counterexample :
    (exInitUser.rate = 0 ∧ exInitUser.rate + 1 > 0 ∧
      exInitUser.status ≠ UserStatus.FREE ∧
      (exInitUser._change_rate 1 7 (1/6)).status = UserStatus.ACTIVE ∧
      (exInitUser._change_rate 1 7 (1/6)).status ≠ exInitUser.status) ∧
    ((-1 : ℚ) < 0 ∧ exWarnUser.status = UserStatus.WARNING ∧
      exWarnUser.balance / (exWarnUser.rate + (-1)) > (1/6) * 3600 ∧
      (exWarnUser._change_rate (-1) 0 (1/6)).status = UserStatus.WARNING) := by
  have h1 : (exInitUser._change_rate 1 7 (1/6)).status = UserStatus.ACTIVE := by
    norm_num [exInitUser, User._change_rate, User._notify_or_not]
  have h2 : (exWarnUser._change_rate (-1) 0 (1/6)).status
      = UserStatus.WARNING := by
    norm_num [exWarnUser, User._change_rate, User._notify_or_not]
  exact ⟨⟨by decide, by norm_num [exInitUser], by decide, h1,
          by rw [h1]; decide⟩,
         by norm_num, by decide, by norm_num [exWarnUser], h2⟩

/-- Let-free unfolding of `_change_rate`, definitionally equal to the
definition. -/
theorem change_rate_unfold (u : User) (d now p : ℚ) :
    u._change_rate d now p =
      { (if u.rate = 0 ∧ u.rate + d > 0 then
          { u with last_bill := now, status := UserStatus.ACTIVE,
                   status_reason := "Status change to ACTIVE caus resource creation." }
        else if d < 0 then
          (if u.rate + d = 0 ∧ u.balance ≥ 0 then
            { u with status := UserStatus.FREE,
                     status_reason := "Status change to FREE because of resource deletion." }
          else if u.status = UserStatus.WARNING ∧
              ¬ (u._notify_or_not p) then
            { u with status := UserStatus.ACTIVE,
                     status_reason := "Status change from WARNING to ACTIVE because of resource deletion." }
          else u)
        else u) with rate := u.rate + d } := rfl

/-- C5, amended: `_change_rate` sets `rate := old_rate + d` and leaves
`balance`, `credit` and `id` unchanged; when `old_rate = 0` and the
new rate is positive it sets `last_bill := now` and status `ACTIVE`
(whatever the previous status was, not only from `FREE`); otherwise,
when `d < 0` and the new rate is `0` with `balance ≥ 0`, status
becomes `FREE`; otherwise, when `d < 0`, the status is `WARNING` and
the balance exceeds the notify window times the OLD rate (the code
runs the notify check before overwriting `rate`), status becomes
`ACTIVE`; in all other cases status and `last_bill` are unchanged. -/
theorem change_rate_spec (u : User) (d now p : ℚ) :
    (u._change_rate d now p).rate = u.rate + d ∧
    (u._change_rate d now p).balance = u.balance ∧
    (u._change_rate d now p).credit = u.credit ∧
    (u._change_rate d now p).id = u.id ∧
    (u._change_rate d now p).last_bill =
      (if u.rate = 0 ∧ u.rate + d > 0 then now else u.last_bill) ∧
    (u._change_rate d now p).status =
      (if u.rate = 0 ∧ u.rate + d > 0 then UserStatus.ACTIVE
       else if d < 0 ∧ (u.rate + d = 0 ∧ u.balance ≥ 0) then UserStatus.FREE
       else if d < 0 ∧ (u.status = UserStatus.WARNING ∧
           u.balance > p * 3600 * u.rate) then UserStatus.ACTIVE
       else u.status) := by
  have hn := notify_or_not_eq_false_iff u p
  rw [change_rate_unfold]
  refine ⟨?_, ?_, ?_, ?_, ?_, ?_⟩
  · split_ifs <;> rfl
  · split_ifs <;> rfl
  · split_ifs <;> rfl
  · split_ifs <;> rfl
  · split_ifs <;> first | rfl | tauto
  · simp only [Bool.not_eq_true, hn]
    split_ifs <;> first | rfl | tauto

/-- An `ACTIVE` account that overdrafts when settled at `now = 10`. -/
def exLowActiveUser : User :=
  { id := "u5", balance := 5, rate := 1, credit := 0, last_bill := 0,
    status := UserStatus.ACTIVE, status_reason := "active" }

/-- A live (non-deleted) resource row. -/
def exResource : OwnedResource :=
  { id := "r1", rate := 1, deleted := false }

/-- C2, counterexample: `exLowActiveUser` is `ACTIVE` and a settlement
at `now = 10` computes balance `-5 < 0`, but with no `freeze` task
(`task = none`) the account does NOT transition to `FREEZE`: the
status stays `ACTIVE`, the rate stays `1` and the resource row stays
non-deleted.  The freeze cascade only runs when the settlement is
invoked with `task = 'freeze'`. -/
theorem settle_below_zero_without_freeze_task :
    exLowActiveUser.status = UserStatus.ACTIVE ∧
    (exLowActiveUser.settle_account [exResource] none 10 1).1.balance < 0 ∧
    (exLowActiveUser.settle_account [exResource] none 10 1).1.status
      ≠ UserStatus.FREEZE ∧
    (exLowActiveUser.settle_account [exResource] none 10 1).1.rate ≠ 0 ∧
    (exLowActiveUser.settle_account [exResource] none 10 1).2
      = [exResource] := by
  have e1 : ¬ ((none : Option String) = some "notify" ∧
      (exLowActiveUser._settle_account 10 0)._notify_or_not 1 = true) := by
    rintro ⟨h, -⟩
    exact Option.noConfusion h
  have e2 : ¬ ((none : Option String) = some "freeze" ∧
      (exLowActiveUser._settle_account 10 0).balance ≤ 0) := by
    rintro ⟨h, -⟩
    exact Option.noConfusion h
  have hs : exLowActiveUser.settle_account [exResource] none 10 1
      = (exLowActiveUser._settle_account 10 0, [exResource]) := by
    unfold User.settle_account
    rw [if_neg e1, if_neg e2]
  have hst : (exLowActiveUser._settle_account 10 0).status
      = UserStatus.ACTIVE := by
    norm_num [User._settle_account, exLowActiveUser]
  refine ⟨by decide, ?_, ?_, ?_, ?_⟩
  · rw [hs]
    norm_num [User._settle_account, exLowActiveUser]
  · rw [hs]
    show (exLowActiveUser._settle_account 10 0).status ≠ UserStatus.FREEZE
    rw [hst]
    decide
  · rw [hs]
    norm_num [User._settle_account, exLowActiveUser]
  · rw [hs]

/-- C2, amended: for an account in status `ACTIVE` or `WARNING`, when
the settlement is performed with task `'freeze'` and the settled
balance is below zero (the code actually freezes already at `≤ 0`),
the account transitions to `FREEZE`, every resource of the user ends
up deleted, and the rate is reset to `0`. -/
theorem settle_account_freeze_task_spec (u : User)
    (rs : List OwnedResource) (now p : ℚ)
    (hs : u.status = UserStatus.ACTIVE ∨ u.status = UserStatus.WARNING)
    (hb : (u._settle_account now 0).balance < 0) :
    (u.settle_account rs (some "freeze") now p).1.status = UserStatus.FREEZE ∧
    (u.settle_account rs (some "freeze") now p).1.rate = 0 ∧
    ∀ r ∈ (u.settle_account rs (some "freeze") now p).2, r.deleted = true := by
  have hnn : ¬ ((some "freeze" : Option String) = some "notify" ∧
      (u._settle_account now 0)._notify_or_not p = true) := by
    rintro ⟨h, -⟩
    simp at h
  have hfr : (some "freeze" : Option String) = some "freeze" ∧
      (u._settle_account now 0).balance ≤ 0 := ⟨rfl, le_of_lt hb⟩
  unfold User.settle_account
  rw [if_neg hnn, if_pos hfr]
  refine ⟨rfl, rfl, ?_⟩
  intro r hr
  simp only [List.mem_map] at hr
  obtain ⟨r0, -, rfl⟩ := hr
  by_cases hd : r0.deleted = true <;> simp [hd]

/-- Witness for `settle_account_freeze_task_spec` at
`exLowActiveUser`, one live resource and `now = 10`. -/
theorem settle_account_freeze_task_spec_witness :
    (exLowActiveUser.status = UserStatus.ACTIVE ∨
      exLowActiveUser.status = UserStatus.WARNING) ∧
    (exLowActiveUser._settle_account 10 0).balance < 0 ∧
    ((exLowActiveUser.settle_account [exResource] (some "freeze") 10 1).1.status
        = UserStatus.FREEZE ∧
      (exLowActiveUser.settle_account [exResource] (some "freeze") 10 1).1.rate
        = 0 ∧
      ∀ r ∈ (exLowActiveUser.settle_account [exResource] (some "freeze") 10 1).2,
        r.deleted = true) :=
  ⟨by decide, by norm_num [exLowActiveUser, User._settle_account],
    settle_account_freeze_task_spec exLowActiveUser [exResource] 10 1
      (by decide) (by norm_num [exLowActiveUser, User._settle_account])⟩

/-- C3: mutual exclusion of the per-user lock.  DB-level `acquire`
succeeds (returns the caller's own `action_id`) exactly when no row
exists for the user or the row's owner already equals `action_id`;
and once `acquire(u, a)` has succeeded — leaving lock table `l1` — any
`acquire(u, b)` with `b ≠ a` fails and changes nothing, `release(u,
b)` is a failing no-op, while `release(u, a)` deletes the row and
`steal(u, b)` overwrites the owner with `b`, after each of which
`acquire(u, b)` succeeds. -/
theorem user_lock_mutual_exclusion (locks : String → Option String)
    (l1 : String → Option String) (u a b : String) (hab : a ≠ b)
    (hacq : db_user_lock_acquire locks u a = (l1, a)) :
    ((db_user_lock_acquire locks u a).2 = a ↔
      (locks u = none ∨ locks u = some a)) ∧
    l1 u = some a ∧
    db_user_lock_acquire l1 u b = (l1, a) ∧
    db_user_lock_release l1 u b = (l1, false) ∧
    (db_user_lock_release l1 u a).2 = true ∧
    (db_user_lock_release l1 u a).1 u = none ∧
    (db_user_lock_steal l1 u b).1 u = some b ∧
    (db_user_lock_acquire (db_user_lock_release l1 u a).1 u b).2 = b ∧
    (db_user_lock_acquire (db_user_lock_steal l1 u b).1 u b).2 = b := by
  have hiff : (db_user_lock_acquire locks u a).2 = a ↔
      (locks u = none ∨ locks u = some a) := by
    unfold db_user_lock_acquire
    cases h : locks u <;> simp [h]
  have hl1 : l1 u = some a := by
    unfold db_user_lock_acquire at hacq
    cases h : locks u with
    | none =>
      simp only [h] at hacq
      rw [Prod.mk.injEq] at hacq
      obtain ⟨h1, -⟩ := hacq
      rw [← h1]
      simp
    | some o =>
      simp only [h] at hacq
      rw [Prod.mk.injEq] at hacq
      obtain ⟨h1, h2⟩ := hacq
      rw [← h1, h, h2]
  have hba : ¬ (a = b) := hab
  refine ⟨hiff, hl1, ?_, ?_, ?_, ?_, ?_, ?_, ?_⟩
  · unfold db_user_lock_acquire
    rw [hl1]
  · unfold db_user_lock_release
    rw [hl1]
    simp [hba]
  · unfold db_user_lock_release
    rw [hl1]
    simp
  · unfold db_user_lock_release
    rw [hl1]
    simp
  · unfold db_user_lock_steal
    simp
  · unfold db_user_lock_release db_user_lock_acquire
    rw [hl1]
    simp
  · unfold db_user_lock_steal db_user_lock_acquire
    simp

/-- Witness for `user_lock_mutual_exclusion`: an empty lock table,
user `u1` and actions `a1 ≠ a2`. -/
theorem user_lock_mutual_exclusion_witness :
    ("a1" : String) ≠ "a2" ∧
    db_user_lock_acquire (fun _ => none) "u1" "a1"
      = ((db_user_lock_acquire (fun _ => none) "u1" "a1").1, "a1") ∧
    (((db_user_lock_acquire (fun _ => none) "u1" "a1").2 = "a1" ↔
        ((fun _ => (none : Option String)) "u1" = none ∨
          (fun _ => (none : Option String)) "u1" = some "a1")) ∧
      (db_user_lock_acquire (fun _ => none) "u1" "a1").1 "u1" = some "a1" ∧
      db_user_lock_acquire
          (db_user_lock_acquire (fun _ => none) "u1" "a1").1 "u1" "a2"
        = ((db_user_lock_acquire (fun _ => none) "u1" "a1").1, "a1") ∧
      db_user_lock_release
          (db_user_lock_acquire (fun _ => none) "u1" "a1").1 "u1" "a2"
        = ((db_user_lock_acquire (fun _ => none) "u1" "a1").1, false) ∧
      (db_user_lock_release
          (db_user_lock_acquire (fun _ => none) "u1" "a1").1 "u1" "a1").2
        = true ∧
      (db_user_lock_release
          (db_user_lock_acquire (fun _ => none) "u1" "a1").1 "u1" "a1").1 "u1"
        = none ∧
      (db_user_lock_steal
          (db_user_lock_acquire (fun _ => none) "u1" "a1").1 "u1" "a2").1 "u1"
        = some "a2" ∧
      (db_user_lock_acquire
          (db_user_lock_release
            (db_user_lock_acquire (fun _ => none) "u1" "a1").1 "u1" "a1").1
          "u1" "a2").2 = "a2" ∧
      (db_user_lock_acquire
          (db_user_lock_steal
            (db_user_lock_acquire (fun _ => none) "u1" "a1").1 "u1" "a2").1
          "u1" "a2").2 = "a2") :=
  ⟨by decide, rfl,
    user_lock_mutual_exclusion (fun _ => none)
      (db_user_lock_acquire (fun _ => none) "u1" "a1").1 "u1" "a1" "a2"
      (by decide) rfl⟩

/-- An `ACTIVE` account with zero balance and positive rate: its
notify date is clamped to `now`. -/
def exDrainedUser : User :=
  { id := "u6", balance := 0, rate := 1, credit := 0, last_bill := 0,
    status := UserStatus.ACTIVE, status_reason := "active" }

/-- C7, counterexample: the claim computes the notify run date as
`now + (balance / rate - notify_window)` with no clamping, but
`_add_notify_job` clamps the offset below at `0`.  For `balance = 0`,
`rate = 1`, `notify_window = 600` seconds (`prior_notify_time = 1/6`
hours) and `now = 1000`, the code schedules the notify job at `1000`,
not at the claimed `1000 + (0/1 - 600) = 400`. -/
theorem notify_job_clamp_counterexample :
    exDrainedUser.rate > 0 ∧
    CronScheduler._add_notify_job exDrainedUser 1000 (1/6) = some 1000 ∧
    (1000 : ℚ) + (exDrainedUser.balance / exDrainedUser.rate - (1/6) * 3600)
      = 400 ∧
    CronScheduler._add_notify_job exDrainedUser 1000 (1/6) ≠
      some (1000 +
        (exDrainedUser.balance / exDrainedUser.rate - (1/6) * 3600)) := by
  have h : CronScheduler._add_notify_job exDrainedUser 1000 (1/6)
      = some 1000 := by
    norm_num [CronScheduler._add_notify_job, exDrainedUser]
  refine ⟨by norm_num [exDrainedUser], h, by norm_num [exDrainedUser], ?_⟩
  rw [h]
  norm_num [exDrainedUser]

/-- C7, amended: for every account with `rate > 0`, the freeze job's
run date is `now + balance / rate` and the notify job's run date is
`now + max 0 (balance / rate - notify_window)`, where `notify_window =
prior_notify_time * 3600` seconds (the notify offset is clamped below
at zero; in the claim's example, `balance = 3600`, `rate = 1`,
`notify_window = 600`, the clamp does not bite and the dates are
`now + 3600` and `now + 3000`). -/
theorem schedule_job_run_dates_spec (u : User) (now p : ℚ)
    (hr : 0 < u.rate) :
    CronScheduler._add_freeze_job u now = some (now + u.balance / u.rate) ∧
    CronScheduler._add_notify_job u now p
      = some (now + max 0 (u.balance / u.rate - p * 3600)) := by
  have hne : ¬ u.rate = 0 := ne_of_gt hr
  constructor
  · unfold CronScheduler._add_freeze_job
    rw [if_neg hne]
  · unfold CronScheduler._add_notify_job
    rw [if_neg hne]
    show some (now + (if u.balance / u.rate - p * 3600 > 0 then
      u.balance / u.rate - p * 3600 else 0)) = _
    have hm : (if u.balance / u.rate - p * 3600 > 0 then
        u.balance / u.rate - p * 3600 else 0)
        = max 0 (u.balance / u.rate - p * 3600) := by
      rcases lt_or_le 0 (u.balance / u.rate - p * 3600) with hc | hc
      · rw [if_pos hc, max_eq_right hc.le]
      · rw [if_neg (not_lt.mpr hc), max_eq_left hc]
    rw [hm]

/-- The claim's example account: one hour of runway at rate 1. -/
def exSchedUser : User :=
  { id := "u7", balance := 3600, rate := 1, credit := 0, last_bill := 0,
    status := UserStatus.ACTIVE, status_reason := "active" }

/-- Witness for `schedule_job_run_dates_spec` at the claim's own
example: `balance = 3600`, `rate = 1`, `notify_window = 600` seconds,
`now = 0`, giving `freeze_at = 3600` and `notify_at = 3000`. -/
theorem schedule_job_run_dates_spec_witness :
    (0 : ℚ) < exSchedUser.rate ∧
    (CronScheduler._add_freeze_job exSchedUser 0
        = some (0 + exSchedUser.balance / exSchedUser.rate) ∧
      CronScheduler._add_notify_job exSchedUser 0 (1/6)
        = some (0 + max 0 (exSchedUser.balance / exSchedUser.rate
            - (1/6) * 3600))) ∧
    CronScheduler._add_freeze_job exSchedUser 0 = some 3600 ∧
    CronScheduler._add_notify_job exSchedUser 0 (1/6) = some 3000 := by
  have h := schedule_job_run_dates_spec exSchedUser 0 (1/6)
    (by norm_num [exSchedUser])
  refine ⟨by norm_num [exSchedUser], h, ?_, ?_⟩
  · rw [h.1]
    norm_num [exSchedUser]
  · rw [h.2]
    norm_num [exSchedUser]

/-- C6, in two independently-hypothesised halves.  Update half: when
the resource's stored `rate` is the new rate and `delta_rate =
new_rate - old_rate` for an actual change (`old_rate ≠ rate`, any new
rate including `0`), `_update` at time `t` produces exactly one
consumption record `(start_time = last_bill, end_time = t, rate =
old_rate, cost = old_rate * (t - last_bill))` and advances
`last_bill` to `t`.  Delete half: for any resource with positive
`rate` (whatever its incoming `delta_rate`, which `_delete` itself
overwrites with `-rate`), `_delete` at time `td` produces exactly one
final consumption record covering `[last_bill, td)` at the current
rate with `cost = rate * (td - last_bill)`, advancing `last_bill` to
`td`. -/
theorem resource_consumption_spec (r : PluginResource) (old_rate t td : ℚ) :
    (r.delta_rate = r.rate - old_rate → old_rate ≠ r.rate →
      (r._update t).1.last_bill = t ∧
      (r._update t).2 = some
        { user_id := r.user_id, resource_id := r.id,
          resource_type := r.resource_type,
          start_time := r.last_bill, end_time := t,
          rate := old_rate, cost := old_rate * (t - r.last_bill) }) ∧
    (0 < r.rate →
      (r._delete td).1.last_bill = td ∧
      (r._delete td).2 = some
        { user_id := r.user_id, resource_id := r.id,
          resource_type := r.resource_type,
          start_time := r.last_bill, end_time := td,
          rate := r.rate, cost := r.rate * (td - r.last_bill) }) := by
  constructor
  · intro hdel hne
    have hdz : ¬ r.delta_rate = 0 := by
      rw [hdel]
      intro h
      exact hne (by linarith)
    have hu : r._update t =
        ({ r with last_bill := t }, some
          { user_id := r.user_id, resource_id := r.id,
            resource_type := r.resource_type,
            start_time := r.last_bill, end_time := t,
            rate := r.rate - r.delta_rate,
            cost := (t - r.last_bill) * (r.rate - r.delta_rate) }) := by
      unfold PluginResource._update
      rw [if_neg hdz]
    refine ⟨by rw [hu], ?_⟩
    rw [hu, hdel]
    simp only [Option.some.injEq, Consumption.mk.injEq, true_and, and_true]
    repeat' constructor
    all_goals first | trivial | ring
  · intro hpos
    have hdz2 : ¬ (- r.rate) = 0 := by
      intro h
      exact absurd (neg_eq_zero.mp h) (ne_of_gt hpos)
    have hd : r._delete td =
        ({ r with delta_rate := - r.rate, last_bill := td }, some
          { user_id := r.user_id, resource_id := r.id,
            resource_type := r.resource_type,
            start_time := r.last_bill, end_time := td,
            rate := r.rate, cost := (td - r.last_bill) * r.rate }) := by
      unfold PluginResource._delete
      rw [if_neg hdz2]
    refine ⟨by rw [hd], ?_⟩
    rw [hd]
    simp only [Option.some.injEq, Consumption.mk.injEq, true_and, and_true]
    repeat' constructor
    all_goals first | trivial | ring

/-- A resource whose rate was just lowered from `2` to `0`
(`delta_rate = -2`): the new rate is zero, a case the update half of
the consumption claim must cover. -/
def exUpdatedToZeroResource : PluginResource :=
  { id := "res1", user_id := "u8", resource_type := "os.nova.server",
    rate := 0, delta_rate := -2, last_bill := 0 }

/-- The claim's example resource at deletion time: rate `5`,
`last_bill = t0 + 10`, still in its default `delta_rate = 0` state
(`_delete` overwrites `delta_rate` itself). -/
def exDeletedResource : PluginResource :=
  { id := "res2", user_id := "u8", resource_type := "os.nova.server",
    rate := 5, delta_rate := 0, last_bill := 10 }

/-- Witness for `resource_consumption_spec`, applied twice: the
update half at `exUpdatedToZeroResource` (old rate `2`, new rate `0`,
update time `10`, consumption `(start 0, end 10, rate 2, cost 20)`)
and the delete half at `exDeletedResource` with `delta_rate = 0`
(delete time `20`, reproducing the claim's example consumption
`(start 10, end 20, rate 5, cost 50)`). -/
theorem resource_consumption_spec_witness :
    (exUpdatedToZeroResource.delta_rate
        = exUpdatedToZeroResource.rate - 2 ∧
      (2 : ℚ) ≠ exUpdatedToZeroResource.rate ∧
      (exUpdatedToZeroResource._update 10).1.last_bill = 10 ∧
      (exUpdatedToZeroResource._update 10).2 = some
        { user_id := exUpdatedToZeroResource.user_id,
          resource_id := exUpdatedToZeroResource.id,
          resource_type := exUpdatedToZeroResource.resource_type,
          start_time := exUpdatedToZeroResource.last_bill, end_time := 10,
          rate := 2,
          cost := 2 * (10 - exUpdatedToZeroResource.last_bill) }) ∧
    ((0 : ℚ) < exDeletedResource.rate ∧
      (exDeletedResource._delete 20).1.last_bill = 20 ∧
      (exDeletedResource._delete 20).2 = some
        { user_id := exDeletedResource.user_id,
          resource_id := exDeletedResource.id,
          resource_type := exDeletedResource.resource_type,
          start_time := exDeletedResource.last_bill, end_time := 20,
          rate := exDeletedResource.rate,
          cost := exDeletedResource.rate
            * (20 - exDeletedResource.last_bill) }) :=
  ⟨⟨by norm_num [exUpdatedToZeroResource],
    by norm_num [exUpdatedToZeroResource],
    (resource_consumption_spec exUpdatedToZeroResource 2 10 20).1
      (by norm_num [exUpdatedToZeroResource])
      (by norm_num [exUpdatedToZeroResource])⟩,
   ⟨by norm_num [exDeletedResource],
    (resource_consumption_spec exDeletedResource 0 0 20).2
      (by norm_num [exDeletedResource])⟩⟩

/-- The retry loop executes at most `retries` iterations. -/
theorem lock_retry_loop_le (seq : ℕ → String) (a : String) :
    ∀ (retries idx : ℕ) (ow : String),
      (lock_retry_loop seq a retries idx ow).2.2 ≤ retries := by
  intro retries
  induction retries with
  | zero =>
    intro idx ow
    simp [lock_retry_loop]
  | succ n ih =>
    intro idx ow
    simp only [lock_retry_loop]
    split
    · exact Nat.succ_le_succ (Nat.zero_le n)
    · exact Nat.succ_le_succ (ih (idx + 1) (seq idx))

/-- `dead_owner_condition` holds exactly when the owning action row
exists, names an owning engine different from the caller's, and that
engine is dead. -/
theorem dead_owner_condition_iff (db : DbState) (engine : Option String)
    (now pi : ℚ) (ow : String) :
    dead_owner_condition db engine now pi ow = true ↔
      ∃ act eng, db.actions ow = some act ∧ act.owner = some eng ∧
        engine ≠ some eng ∧
        is_engine_dead db.services now (2 * pi) eng = true := by
  unfold dead_owner_condition
  cases h : db.actions ow with
  | none => simp
  | some act =>
    cases ho : act.owner with
    | none => simp [ho]
    | some eng =>
      simp only [ho, Bool.and_eq_true, decide_eq_true_eq,
        Option.some.injEq]
      constructor
      · rintro ⟨h1, h2⟩
        exact ⟨act, eng, rfl, ho, h1, h2⟩
      · rintro ⟨act2, eng2, hact2, hown2, hne2, hd2⟩
        cases hact2
        rw [ho] at hown2
        cases hown2
        exact ⟨hne2, hd2⟩

/-- A database in which user `u1` is locked by action `a0`, whose
action row is owned by engine `e1`, whose last heartbeat was at time
`0`. -/
def exDeadDb : DbState :=
  { locks := fun x => if x = "u1" then some "a0" else none,
    actions := fun x =>
      if x = "a0" then some { id := "a0", owner := some "e1",
                              status := "RUNNING" }
      else none,
    services := fun x => if x = "e1" then some 0 else none }

/-- C4, counterexample: at `now = 100` with `periodic_interval = 10`,
engine `e1` has not heartbeat within `2 * periodic_interval = 20`
seconds, so by the claim a non-forced contended acquire should mark
the owner's action failed, steal the lock and return true.  But when
the caller's own engine id equals the owner's engine (`engine = some
"e1"`), the code's extra `action.owner != engine` guard fails and the
acquire returns false without stealing or marking anything. -/
theorem dead_owner_same_engine_not_stolen :
    is_engine_dead exDeadDb.services 100 (2 * 10) "e1" = true ∧
    exDeadDb.actions "a0"
      = some { id := "a0", owner := some "e1", status := "RUNNING" } ∧
    (user_lock_acquire exDeadDb (fun _ => "a0") "u1" "a1" (some "e1")
        false 2 5 100 10).1.acquired = false ∧
    (user_lock_acquire exDeadDb (fun _ => "a0") "u1" "a1" (some "e1")
        false 2 5 100 10).1.stole = false ∧
    (user_lock_acquire exDeadDb (fun _ => "a0") "u1" "a1" (some "e1")
        false 2 5 100 10).1.marked_failed = none := by
  have hd : is_engine_dead exDeadDb.services 100 (2 * 10) "e1" = true := by
    norm_num [is_engine_dead, exDeadDb]
  have hev : user_lock_acquire exDeadDb (fun _ => "a0") "u1" "a1"
      (some "e1") false 2 5 100 10
      = ({ acquired := false, db_calls := 1 + 2, slept := 5 * ((2 : ℕ) : ℚ),
           stole := false, marked_failed := none }, exDeadDb) := rfl
  exact ⟨hd, by norm_num [exDeadDb], by rw [hev], by rw [hev], by rw [hev]⟩

/-- C4, amended.  After a failed first acquire attempt
(`seq 0 ≠ action_id`), the procedure executes
`(lock_retry_loop …).2.2 ≤ lock_retry_times` further DB acquire
attempts, sleeping `lock_retry_interval` seconds before each of them
(total sleep = interval * retries executed); if a retry succeeded it
returns true without stealing; if the loop failed and `forced` is
true it steals unconditionally and returns whether the caller now
owns the lock; if the loop failed and `forced` is false, then — only
when the lock owner's action row exists, names an owning worker
engine DIFFERENT from the caller's engine id, and that engine has not
heartbeat within `2 * periodic_interval` seconds — it marks that
action failed, steals the lock and returns true; in every other case
it returns false, steals nothing and marks nothing. -/
theorem user_lock_acquire_contended_spec
    (db : DbState) (seq : ℕ → String) (u a : String)
    (engine : Option String) (forced : Bool) (N : ℕ) (ivl now pi : ℚ)
    (h0 : seq 0 ≠ a) :
    (user_lock_acquire db seq u a engine forced N ivl now pi).1.db_calls
        = 1 + (lock_retry_loop seq a N 1 (seq 0)).2.2 ∧
    (lock_retry_loop seq a N 1 (seq 0)).2.2 ≤ N ∧
    (user_lock_acquire db seq u a engine forced N ivl now pi).1.slept
        = ivl * (lock_retry_loop seq a N 1 (seq 0)).2.2 ∧
    ((lock_retry_loop seq a N 1 (seq 0)).1 = true →
      (user_lock_acquire db seq u a engine forced N ivl now pi).1.acquired
          = true ∧
      (user_lock_acquire db seq u a engine forced N ivl now pi).1.stole
          = false) ∧
    ((lock_retry_loop seq a N 1 (seq 0)).1 = false → forced = true →
      (user_lock_acquire db seq u a engine forced N ivl now pi).1.stole
          = true ∧
      (user_lock_acquire db seq u a engine forced N ivl now pi).1.acquired
          = true ∧
      (user_lock_acquire db seq u a engine forced N ivl now pi).2.locks u
          = some a) ∧
    ((lock_retry_loop seq a N 1 (seq 0)).1 = false → forced = false →
      (∀ act eng,
        db.actions (lock_retry_loop seq a N 1 (seq 0)).2.1 = some act →
        act.owner = some eng → engine ≠ some eng →
        is_engine_dead db.services now (2 * pi) eng = true →
        (user_lock_acquire db seq u a engine forced N ivl now pi).1.acquired
            = true ∧
        (user_lock_acquire db seq u a engine forced N ivl now pi).1.stole
            = true ∧
        (user_lock_acquire db seq u a engine forced N ivl now pi).1.marked_failed
            = some act.id ∧
        (user_lock_acquire db seq u a engine forced N ivl now pi).2.locks u
            = some a) ∧
      ((¬ ∃ act eng,
          db.actions (lock_retry_loop seq a N 1 (seq 0)).2.1 = some act ∧
          act.owner = some eng ∧ engine ≠ some eng ∧
          is_engine_dead db.services now (2 * pi) eng = true) →
        (user_lock_acquire db seq u a engine forced N ivl now pi).1.acquired
            = false ∧
        (user_lock_acquire db seq u a engine forced N ivl now pi).1.stole
            = false ∧
        (user_lock_acquire db seq u a engine forced N ivl now pi).1.marked_failed
            = none ∧
        (user_lock_acquire db seq u a engine forced N ivl now pi).2 = db)) := by
  unfold user_lock_acquire
  rw [if_neg h0]
  refine ⟨?_, lock_retry_loop_le seq a N 1 (seq 0), ?_, ?_, ?_, ?_⟩
  · repeat' split
    all_goals rfl
  · repeat' split
    all_goals rfl
  · intro hs
    rw [if_pos hs]
    exact ⟨rfl, rfl⟩
  · intro hs hf
    rw [if_neg (by rw [hs]; exact Bool.false_ne_true), if_pos (by rw [hf])]
    refine ⟨rfl, ?_, ?_⟩
    · show decide (a = (db_user_lock_steal db.locks u a).2) = true
      simp [db_user_lock_steal]
    · show (db_user_lock_steal db.locks u a).1 u = some a
      simp [db_user_lock_steal]
  · intro hs hf
    rw [if_neg (by rw [hs]; exact Bool.false_ne_true),
        if_neg (by rw [hf]; exact Bool.false_ne_true)]
    constructor
    · intro act eng hact hown hne hdead
      have hcond : dead_owner_condition db engine now pi
          (lock_retry_loop seq a N 1 (seq 0)).2.1 = true :=
        (dead_owner_condition_iff db engine now pi _).mpr
          ⟨act, eng, hact, hown, hne, hdead⟩
      rw [if_pos hcond]
      refine ⟨rfl, rfl, ?_, ?_⟩
      · show Option.map (fun act => act.id)
          (db.actions (lock_retry_loop seq a N 1 (seq 0)).2.1) = some act.id
        rw [hact]
        rfl
      · show (db_user_lock_steal db.locks u a).1 u = some a
        simp [db_user_lock_steal]
    · intro hno
      have h1 : ¬ dead_owner_condition db engine now pi
          (lock_retry_loop seq a N 1 (seq 0)).2.1 = true :=
        fun hh => hno ((dead_owner_condition_iff db engine now pi _).mp hh)
      rw [if_neg h1]
      exact ⟨rfl, rfl, rfl, rfl⟩

/-- Witness for `user_lock_acquire_contended_spec`: the lock is owned
by `a0` on the first attempt and freed before the first retry
(`seq 1 = "a1"`), so the contended acquire succeeds on the first
retry with one sleep. -/
theorem user_lock_acquire_contended_spec_witness :
    (if (0 : ℕ) = 0 then "a0" else "a1") ≠ "a1" ∧
    ((user_lock_acquire exDeadDb (fun n => if n = 0 then "a0" else "a1")
        "u1" "a1" none false 2 5 100 10).1.db_calls
        = 1 + (lock_retry_loop (fun n => if n = 0 then "a0" else "a1")
            "a1" 2 1 ((fun n : ℕ => if n = 0 then "a0" else "a1") 0)).2.2 ∧
      (lock_retry_loop (fun n => if n = 0 then "a0" else "a1") "a1" 2 1
          ((fun n : ℕ => if n = 0 then "a0" else "a1") 0)).2.2 ≤ 2 ∧
      (user_lock_acquire exDeadDb (fun n => if n = 0 then "a0" else "a1")
          "u1" "a1" none false 2 5 100 10).1.slept
        = 5 * (lock_retry_loop (fun n => if n = 0 then "a0" else "a1")
            "a1" 2 1 ((fun n : ℕ => if n = 0 then "a0" else "a1") 0)).2.2 ∧
      ((lock_retry_loop (fun n => if n = 0 then "a0" else "a1") "a1" 2 1
          ((fun n : ℕ => if n = 0 then "a0" else "a1") 0)).1 = true →
        (user_lock_acquire exDeadDb (fun n => if n = 0 then "a0" else "a1")
            "u1" "a1" none false 2 5 100 10).1.acquired = true ∧
        (user_lock_acquire exDeadDb (fun n => if n = 0 then "a0" else "a1")
            "u1" "a1" none false 2 5 100 10).1.stole = false) ∧
      ((lock_retry_loop (fun n => if n = 0 then "a0" else "a1") "a1" 2 1
          ((fun n : ℕ => if n = 0 then "a0" else "a1") 0)).1 = false →
        false = true →
        (user_lock_acquire exDeadDb (fun n => if n = 0 then "a0" else "a1")
            "u1" "a1" none false 2 5 100 10).1.stole = true ∧
        (user_lock_acquire exDeadDb (fun n => if n = 0 then "a0" else "a1")
            "u1" "a1" none false 2 5 100 10).1.acquired = true ∧
        (user_lock_acquire exDeadDb (fun n => if n = 0 then "a0" else "a1")
            "u1" "a1" none false 2 5 100 10).2.locks "u1" = some "a1") ∧
      ((lock_retry_loop (fun n => if n = 0 then "a0" else "a1") "a1" 2 1
          ((fun n : ℕ => if n = 0 then "a0" else "a1") 0)).1 = false →
        false = false →
        (∀ act eng,
          exDeadDb.actions (lock_retry_loop
              (fun n => if n = 0 then "a0" else "a1") "a1" 2 1
              ((fun n : ℕ => if n = 0 then "a0" else "a1") 0)).2.1
            = some act →
          act.owner = some eng → (none : Option String) ≠ some eng →
          is_engine_dead exDeadDb.services 100 (2 * 10) eng = true →
          (user_lock_acquire exDeadDb (fun n => if n = 0 then "a0" else "a1")
              "u1" "a1" none false 2 5 100 10).1.acquired = true ∧
          (user_lock_acquire exDeadDb (fun n => if n = 0 then "a0" else "a1")
              "u1" "a1" none false 2 5 100 10).1.stole = true ∧
          (user_lock_acquire exDeadDb (fun n => if n = 0 then "a0" else "a1")
              "u1" "a1" none false 2 5 100 10).1.marked_failed = some act.id ∧
          (user_lock_acquire exDeadDb (fun n => if n = 0 then "a0" else "a1")
              "u1" "a1" none false 2 5 100 10).2.locks "u1" = some "a1") ∧
        ((¬ ∃ act eng,
            exDeadDb.actions (lock_retry_loop
                (fun n => if n = 0 then "a0" else "a1") "a1" 2 1
                ((fun n : ℕ => if n = 0 then "a0" else "a1") 0)).2.1
              = some act ∧
            act.owner = some eng ∧ (none : Option String) ≠ some eng ∧
            is_engine_dead exDeadDb.services 100 (2 * 10) eng = true) →
          (user_lock_acquire exDeadDb (fun n => if n = 0 then "a0" else "a1")
              "u1" "a1" none false 2 5 100 10).1.acquired = false ∧
          (user_lock_acquire exDeadDb (fun n => if n = 0 then "a0" else "a1")
              "u1" "a1" none false 2 5 100 10).1.stole = false ∧
          (user_lock_acquire exDeadDb (fun n => if n = 0 then "a0" else "a1")
              "u1" "a1" none false 2 5 100 10).1.marked_failed = none ∧
          (user_lock_acquire exDeadDb (fun n => if n = 0 then "a0" else "a1")
              "u1" "a1" none false 2 5 100 10).2 = exDeadDb))) :=
  ⟨by decide,
    user_lock_acquire_contended_spec exDeadDb
      (fun n => if n = 0 then "a0" else "a1") "u1" "a1" none false 2 5 100 10
      (by decide)⟩

/-- After a DB-level release, the released user's row is never still
owned by the releasing action. -/
theorem release_leaves_lock_not_owned (locks : String → Option String)
    (u a : String) : (user_lock_release locks u a).1 u ≠ some a := by
  unfold user_lock_release db_user_lock_release
  cases h : locks u with
  | none => simp [h]
  | some o =>
    by_cases ho : o = a
    · simp [h, ho]
    · simp [h, ho]

/-- C9: `UserAction.execute` releases the per-user lock on every
path.  For every action body (which may return normally or raise),
the event log of `execute` ends with a `release_call` carrying the
action's own id; the final lock table does not hold the lock for this
action; and the returned outcome is the `RES_ERROR`/lock-failure pair
when the acquire failed, and otherwise exactly the body's outcome —
including a raised exception, which propagates only after the
`finally` release has run. -/
theorem execute_releases_lock_on_all_paths
    (seq : ℕ → String) (N : ℕ) (ivl now pi : ℚ)
    (target aid : String) (owner : Option String)
    (body : EngineState → EngineState × Except String (ActionResult × String))
    (s : EngineState) :
    (UserAction.execute seq N ivl now pi target aid owner body s).1.events
      = (if (user_lock_acquire s.db seq target aid owner false
              N ivl now pi).1.acquired = true then
          (body { db := (user_lock_acquire s.db seq target aid owner false
                    N ivl now pi).2,
                  events := s.events
                    ++ [LockEvent.acquire_call target aid] }).1.events
        else
          s.events ++ [LockEvent.acquire_call target aid])
        ++ [LockEvent.release_call target aid] ∧
    (UserAction.execute seq N ivl now pi target aid owner body s).1.db.locks
        target ≠ some aid ∧
    (UserAction.execute seq N ivl now pi target aid owner body s).2
      = (if (user_lock_acquire s.db seq target aid owner false
              N ivl now pi).1.acquired = true then
          (body { db := (user_lock_acquire s.db seq target aid owner false
                    N ivl now pi).2,
                  events := s.events
                    ++ [LockEvent.acquire_call target aid] }).2
        else
          Except.ok (ActionResult.RES_ERROR, "Failed in locking user")) := by
  refine ⟨?_, ?_, ?_⟩
  · show ((if (user_lock_acquire s.db seq target aid owner false
        N ivl now pi).1.acquired = true then
        body { db := (user_lock_acquire s.db seq target aid owner false
                  N ivl now pi).2,
               events := s.events ++ [LockEvent.acquire_call target aid] }
      else
        ({ db := (user_lock_acquire s.db seq target aid owner false
              N ivl now pi).2,
           events := s.events ++ [LockEvent.acquire_call target aid] },
         Except.ok (ActionResult.RES_ERROR,
           "Failed in locking user"))).1.events)
      ++ [LockEvent.release_call target aid] = _
    split <;> rfl
  · exact release_leaves_lock_not_owned _ target aid
  · show (if (user_lock_acquire s.db seq target aid owner false
        N ivl now pi).1.acquired = true then
        body { db := (user_lock_acquire s.db seq target aid owner false
                  N ivl now pi).2,
               events := s.events ++ [LockEvent.acquire_call target aid] }
      else
        ({ db := (user_lock_acquire s.db seq target aid owner false
              N ivl now pi).2,
           events := s.events ++ [LockEvent.acquire_call target aid] },
         Except.ok (ActionResult.RES_ERROR,
           "Failed in locking user"))).2 = _
    split <;> rfl

end Bilean
